import Mathlib

/-!
A shallow embedding of the `xerrs` structured-error library (Go) and proofs
about its operations.

The authoritative implementation is the second iteration in `src/xerrs.go`
(package-level `Extend`, `Mask`, `IsEqual`, `Cause`, `GetData`, `SetData`,
`Stack`, `Details`, `getStack`, and the method `(*xerr).Error`).  The most
advanced iteration additionally carries a wrap-annotation field `msg` on the
`xerr` struct together with `Wrap`/`Wrapf` and a chain-walking data lookup;
its tests and a benchmark (with an inlined copy of the extended `Error`
method) are part of the repository, but the implementation file itself is
not, so those operations are modelled from the spec where noted.

Modelling conventions:
  * A Go `error` value is `Option Err`: `none` is the nil interface value,
    `Err.basic` is a plain message-bearing error (`errors.New`/`fmt.Errorf`
    result), `Err.xerr` is the library's structured error.
  * The Go map `map[string]interface{}` is an association list with
    last-write-wins insertion (`mapInsert`) and key lookup (`mapLookup`).
  * Call-stack introspection is external (spec section 1): each constructor
    receives `frames`, the list of frames that `runtime.Caller` would see
    from inside `getStack` — `frames[0]` is `getStack`'s own frame,
    `frames[1]` the library constructor's frame, `frames[2]` the immediate
    caller, and so on.  `getStack skip` returns the frames from index `skip`
    on, exactly as the source loop over `runtime.Caller (skip + i)` does.
  * In-place mutation (`x.mask = mask` inside `Mask`, the map update inside
    `SetData`) is rendered as returning the updated value; the claims are
    observational statements about the returned error.
-/

namespace Xerrs

/-- A dynamic value stored in the diagnostic-data map (Go `interface{}`);
the repository's tests store strings and integers. -/
inductive GoVal where
  | str : String → GoVal
  | int : Int → GoVal
deriving DecidableEq

/-- `StackLocation` from `src/xerrs.go`: one step of the execution stack. -/
structure StackLocation where
  Function : String
  File : String
  Line : Int
deriving DecidableEq

/-- The `String()` method of `StackLocation`:
`fmt.Sprintf("%s [%s:%d]", Function, File, Line)`. -/
def StackLocation.render (location : StackLocation) : String :=
  location.Function ++ " [" ++ location.File ++ ":" ++ toString location.Line ++ "]"

/-- The `data map[string]interface{}` field, as an association list. -/
abbrev DataMap := List (String × GoVal)

/-- Go map read `m[name]` (first binding wins; `mapInsert` keeps keys unique). -/
def mapLookup : DataMap → String → Option GoVal
  | [], _ => none
  | (k, v) :: rest, name => if k = name then some v else mapLookup rest name

/-- Go map write `m[name] = value`: replaces the binding if the key exists,
otherwise appends a new one. -/
def mapInsert : DataMap → String → GoVal → DataMap
  | [], name, value => [(name, value)]
  | (k, v) :: rest, name, value =>
      if k = name then (k, value) :: rest
      else (k, v) :: mapInsert rest name value

/-- A Go error value reachable through this library: either a plain error
exposing only a message, or the `xerr` struct
`{data map[string]interface{}; cause error; mask error; msg string; stack []StackLocation}`.
The `msg` field is the wrap annotation of the most advanced iteration (shown
by the benchmark in the repository's tests); every constructor present in
`src/xerrs.go` leaves it at its zero value `""`. -/
inductive Err where
  | basic (message : String) : Err
  | xerr (data : Option DataMap) (cause : Err) (mask : Option Err)
         (msg : String) (stack : List StackLocation) : Err

/-- `(*xerr).Error` (src/xerrs.go lines 224-230) extended with the wrap
branch that the repository's benchmark inlines for the advanced iteration:
if the mask is set return the mask's message; else if the wrap annotation
`msg` is non-empty return `msg + ": " + cause.Error()`; else return
`cause.Error()`.  For a plain error, `Error()` is its message. -/
def errError : Err → String
  | .basic message => message
  | .xerr _ _ (some mk) _ _ => errError mk
  | .xerr _ cause none msg _ =>
      if msg ≠ "" then msg ++ ": " ++ errError cause else errError cause

/-- `stackFunctionOffset` from src/xerrs.go: kept at 2 so that the library's
own frames do not appear in the captured stack. -/
def stackFunctionOffset : Nat := 2

/-- `getStack(skip)` (src/xerrs.go lines 417-437): collects
`runtime.Caller(skip + i)` for `i = 0, 1, ...` until the top of the stack,
i.e. all frames from index `skip` on. -/
def getStack (skip : Nat) (frames : List StackLocation) : List StackLocation :=
  List.drop skip frames

/-- `New(message)` (src/xerrs.go lines 246-253): fresh `xerr` with a new
plain cause, nil data, nil mask, and the captured stack. -/
def New (message : String) (frames : List StackLocation) : Err :=
  .xerr none (.basic message) none "" (getStack stackFunctionOffset frames)

/-- `Errorf(format, args...)` (src/xerrs.go lines 257-264); the `fmt`
formatting step is external, so the model receives the formatted message. -/
def Errorf (formatted : String) (frames : List StackLocation) : Err :=
  .xerr none (.basic formatted) none "" (getStack stackFunctionOffset frames)

/-- `Extend(err)` (src/xerrs.go lines 269-280): nil in, nil out; otherwise a
new `xerr` wrapping `err` as its cause (always re-wraps, also for an `xerr`). -/
def Extend (err : Option Err) (frames : List StackLocation) : Option Err :=
  match err with
  | none => none
  | some e => some (.xerr none e none "" (getStack stackFunctionOffset frames))

/-- `Mask(err, mask)` (src/xerrs.go lines 287-303): nil in, nil out; if
`err` is an `xerr` its mask field is updated in place and `err` itself is
returned; otherwise a new `xerr` with cause `err` and the given mask. -/
def Mask (err mask : Option Err) (frames : List StackLocation) : Option Err :=
  match err with
  | none => none
  | some (.xerr data cause _ msg stack) => some (.xerr data cause mask msg stack)
  | some e => some (.xerr none e mask "" (getStack stackFunctionOffset frames))

/-- Modelled from the spec: `Wrap(err, message)` of the advanced iteration
(spec section 4.1; its implementation is missing from src — only
`TestWrap` and the benchmark's `chain` shape `{stack, cause, msg}` are
present): nil in, nil out; otherwise a new `xerr` whose cause is `err` and
whose wrap annotation is `message`. -/
def Wrap (err : Option Err) (message : String) (frames : List StackLocation) : Option Err :=
  match err with
  | none => none
  | some e => some (.xerr none e none message (getStack stackFunctionOffset frames))

/-- One step of `formatQ`: substitutes the first `%q` directive. -/
def formatQList : List Char → List Char → List Char
  | [], _ => []
  | '%' :: 'q' :: rest, arg => '"' :: (arg ++ '"' :: rest)
  | c :: rest, arg => c :: formatQList rest arg

/-- Modelled from the spec: the `fmt.Sprintf` step of `Wrapf` for a format
with a single `%q` directive applied to a string argument without escapable
characters (the shape exercised by `TestWrapf`): the directive is replaced
by the argument in double quotes. -/
def formatQ (format arg : String) : String :=
  ⟨formatQList format.data arg.data⟩

/-- Modelled from the spec: `Wrapf(err, format, args...)` of the advanced
iteration — `Wrap` with the formatted message. -/
def Wrapf (err : Option Err) (format arg : String) (frames : List StackLocation) : Option Err :=
  Wrap err (formatQ format arg) frames

/-- `Cause(err)` (src/xerrs.go lines 324-330): the cause field of an `xerr`
(one level only), `err` itself otherwise. -/
def Cause (err : Option Err) : Option Err :=
  match err with
  | some (.xerr _ cause _ _ _) => some cause
  | _ => err

/-- `IsEqual(err1, err2)` (src/xerrs.go lines 307-320): nil causes compare
as equal, exactly one nil cause compares as unequal, otherwise the
`Error()` texts of the two causes are compared. -/
def IsEqual (err1 err2 : Option Err) : Bool :=
  match Cause err1, Cause err2 with
  | none, none => true
  | none, some _ => false
  | some _, none => false
  | some c1, some c2 => errError c1 == errError c2

/-- `GetData(err, name)` (src/xerrs.go lines 334-351): `(nil, false)` for a
non-`xerr` value or a nil data map, otherwise the Go map read `x.data[name]`. -/
def GetData (err : Option Err) (name : String) : Option GoVal × Bool :=
  match err with
  | some (.xerr data _ _ _ _) =>
      match data with
      | none => (none, false)
      | some m =>
          match mapLookup m name with
          | some v => (some v, true)
          | none => (none, false)
  | _ => (none, false)

/-- `SetData(err, name, value)` (src/xerrs.go lines 355-363): no-op on a
non-`xerr` value; lazily allocates the data map, then writes the binding. -/
def SetData (err : Option Err) (name : String) (value : GoVal) : Option Err :=
  match err with
  | some (.xerr data cause mask msg stack) =>
      let m := match data with
        | none => []
        | some m => m
      some (.xerr (some (mapInsert m name value)) cause mask msg stack)
  | _ => err

/-- Modelled from the spec: the advanced iteration's chain-walking data
lookup on a structured error (spec sections 3 and 4.1; implementation
missing from src — exercised by the `nested error data` case of
`TestData`): search the outermost node first and fall through to the cause
when the key is absent; a plain error at the bottom yields not-found. -/
def getDataChainErr : Err → String → Option GoVal × Bool
  | .basic _, _ => (none, false)
  | .xerr data cause _ _ _, name =>
      match (match data with | none => none | some m => mapLookup m name) with
      | some v => (some v, true)
      | none => getDataChainErr cause name

/-- Modelled from the spec: the advanced iteration's `GetData` over a
possibly-nil error, delegating to `getDataChainErr` on a structured value. -/
def GetDataChain (err : Option Err) (name : String) : Option GoVal × Bool :=
  match err with
  | none => (none, false)
  | some e => getDataChainErr e name

/-- `Stack(err)` (src/xerrs.go lines 367-373): the captured stack of an
`xerr`, nil (here `[]`) otherwise. -/
def Stack (err : Option Err) : List StackLocation :=
  match err with
  | some (.xerr _ _ _ _ stack) => stack
  | _ => []

/-- `strings.Join(elems, sep)`. -/
def stringsJoin (elems : List String) (sep : String) : String :=
  match elems with
  | [] => ""
  | e :: rest => List.foldl (fun acc x => acc ++ sep ++ x) e rest

/-- The `top` bound of the stack loop in `Details`: `maxStack`, clamped
down to the captured length when `maxStack` exceeds it. -/
def detailsTop (maxStack : Int) (stackLen : Nat) : Int :=
  if maxStack > (stackLen : Int) then (stackLen : Int) else maxStack

/-- The stack lines rendered by the loop
`for i := 0; i < top; i++ { result = append(result, x.stack[i].String()) }`. -/
def stackEntries (stack : List StackLocation) (maxStack : Int) : List String :=
  (List.take (detailsTop maxStack stack.length).toNat stack).map StackLocation.render

/-- The `result` list built by `Details` (src/xerrs.go lines 378-413) for a
structured error, before joining with newlines. -/
def detailsLines (cause : Err) (mask : Option Err)
    (stack : List StackLocation) (maxStack : Int) : List String :=
  let result := [""]
  let result := result ++ ["[ERROR] " ++ errError cause]
  let result :=
    match mask with
    | some mk =>
        if errError cause ≠ errError mk then result ++ ["[MASK ERROR] " ++ errError mk]
        else result
    | none => result
  if stack.length = 0 then result
  else result ++ ["[STACK]:"] ++ stackEntries stack maxStack

/-- `Details(err, maxStack)` (src/xerrs.go lines 378-413): empty for nil,
`err.Error()` for a plain error, otherwise the joined `result` lines. -/
def Details (err : Option Err) (maxStack : Int) : String :=
  match err with
  | none => ""
  | some (.basic message) => message
  | some (.xerr _ cause mask _ stack) =>
      stringsJoin (detailsLines cause mask stack maxStack) "\n"

/-- Following the spec's words, for comparison with `IsEqual`: the resolved
cause message of a value — "unwrapping one level if the value is
structured, else using the value's own message". -/
def specResolvedCauseMessage : Err → String
  | .basic message => message
  | .xerr _ cause _ _ _ => errError cause

end Xerrs

namespace Xerrs

@[simp]
theorem errError_basic (m : String) : errError (.basic m) = m := by
  simp [errError]

end Xerrs

namespace Xerrs

/-- C1: Nil propagation — for every non-nil input error, `Extend`, `Mask`
and `Wrap` return a non-nil result; for a nil input they return nil
regardless of the second argument. -/
theorem c1_nil_propagation (e : Err) (m : Option Err) (s : String) (f : List StackLocation) :
    Extend none f = none ∧ Mask none m f = none ∧ Wrap none s f = none ∧
    Extend (some e) f ≠ none ∧ Mask (some e) m f ≠ none ∧ Wrap (some e) s f ≠ none := by
  refine ⟨rfl, rfl, rfl, ?_, ?_, ?_⟩ <;> cases e <;> simp [Extend, Mask, Wrap]

/-- C2: Equality — `IsEqual a b` is true when both are nil, false when
exactly one is nil, and otherwise true iff the resolved cause message of
`a` (one-level unwrap if structured, else the value's own message) equals
that of `b`; this depends only on the causes, not on mask, wrap annotation
or stack, and in particular a structured error equals a plain error with
the same cause text. -/
theorem c2_isEqual_resolved_cause (a b : Option Err) (m msg : String)
    (d : Option DataMap) (mk : Option Err) (st : List StackLocation) :
    (IsEqual a b =
      match a, b with
      | none, none => true
      | none, some _ => false
      | some _, none => false
      | some x, some y => specResolvedCauseMessage x == specResolvedCauseMessage y) ∧
    IsEqual (some (.xerr d (.basic m) mk msg st)) (some (.basic m)) = true := by
  constructor
  · cases a with
    | none =>
        cases b with
        | none => rfl
        | some y => cases y <;> simp [IsEqual, Cause]
    | some x =>
        cases b with
        | none => cases x <;> simp [IsEqual, Cause]
        | some y => cases x <;> cases y <;> simp [IsEqual, Cause, specResolvedCauseMessage]
  · simp [IsEqual, Cause, errError]

/-- C3: Masking replaces the public message but preserves the cause, with
last-write-wins semantics — `Mask(New "ABC", New "XYZ")` has public
message `"XYZ"`, cause message `"ABC"`, and is `IsEqual` to `New "ABC"`;
re-masking an already-masked structured error updates the mask in place
(all other fields unchanged) so the public message becomes the newest
mask's message, and masking with nil reverts the public message to the
cause's message. -/
theorem c3_mask_semantics (f1 f2 f3 f4 f5 : List StackLocation)
    (d : Option DataMap) (c : Err) (mk m2 : Option Err) (msg : String) (st : List StackLocation) :
    (Mask (some (New "ABC" f1)) (some (New "XYZ" f2)) f3).map errError = some "XYZ" ∧
    (Cause (Mask (some (New "ABC" f1)) (some (New "XYZ" f2)) f3)).map errError = some "ABC" ∧
    IsEqual (Mask (some (New "ABC" f1)) (some (New "XYZ" f2)) f3) (some (New "ABC" f4)) = true ∧
    (Mask (Mask (some (New "ABC" f1)) (some (New "001" f2)) f3)
        (some (New "XYZ" f4)) f5).map errError = some "XYZ" ∧
    (Mask (Mask (some (New "ABC" f1)) (some (New "001" f2)) f3) none f4).map errError
      = some "ABC" ∧
    Mask (some (.xerr d c mk msg st)) m2 f1 = some (.xerr d c m2 msg st) ∧
    (Mask (some (.xerr d c mk "" st)) none f1).map errError = some (errError c) := by
  refine ⟨?_, ?_, ?_, ?_, ?_, rfl, ?_⟩ <;>
    simp [Mask, New, Cause, IsEqual, errError]

end Xerrs

namespace Xerrs

theorem mapLookup_mapInsert (m : DataMap) (k : String) (v : GoVal) :
    mapLookup (mapInsert m k v) k = some v := by
  induction m with
  | nil => simp [mapInsert, mapLookup]
  | cons h tl ih =>
      obtain ⟨k2, v2⟩ := h
      by_cases hk : k2 = k <;> simp [mapInsert, mapLookup, hk, ih]

/-- C6: Diagnostic data operations are total and round-trip — after
`SetData e k v` a `GetData e k` returns `(v, true)`; a key not present in
the data map reads back as not-found; `GetData` on nil or a plain error
returns `(nil, false)`; `SetData` on nil or a plain error is a no-op; and
`SetData` lazily initializes the data container on first use. -/
theorem c6_data_total (d : Option DataMap) (c : Err) (mk : Option Err)
    (msg k m : String) (st : List StackLocation) (v : GoVal) :
    GetData (SetData (some (.xerr d c mk msg st)) k v) k = (some v, true) ∧
    GetData (some (.xerr d c mk msg st)) k =
      (match (match d with | none => none | some mm => mapLookup mm k) with
       | some v2 => (some v2, true)
       | none => (none, false)) ∧
    GetData none k = (none, false) ∧
    GetData (some (.basic m)) k = (none, false) ∧
    SetData none k v = none ∧
    SetData (some (.basic m)) k v = some (.basic m) ∧
    SetData (some (.xerr none c mk msg st)) k v = some (.xerr (some [(k, v)]) c mk msg st) := by
  refine ⟨?_, ?_, rfl, rfl, rfl, rfl, ?_⟩
  · cases d <;> simp [SetData, GetData, mapLookup_mapInsert]
  · cases d with
    | none => simp [GetData]
    | some mm => cases hmm : mapLookup mm k <;> simp [GetData, hmm]
  · simp [SetData, mapInsert]

/-- C9 counterexample: for the structured, masked error
`e = Mask(New "ABC", New "XYZ")` the claim's `IsEqual(Extend e, e) = true`
fails — the extension's cause resolves to the mask text `"XYZ"` while the
cause of `e` resolves to `"ABC"`. -/
theorem c9_counterexample :
    IsEqual
      (Extend (Mask (some (New "ABC" [])) (some (New "XYZ" [])) []) [])
      (Mask (some (New "ABC" [])) (some (New "XYZ" [])) []) = false := by
  simp [IsEqual, Extend, Mask, New, Cause, errError, getStack]

/-- C9 (amended): `Extend e` for non-nil `e` always re-wraps, with cause
exactly `e` and no mask, hence `Extend(e).Error() = e.Error()`; and
`IsEqual(Extend e, e)` equals the comparison of the public message of `e`
with the resolved cause message of `e` — in particular it is true for
every plain `e` and for every structured `e` without mask and wrap
annotation, but not for a masked or wrapped `e`. -/
theorem c9_extend_preserves (e : Err) (f : List StackLocation) (msg2 : String) :
    Extend (some e) f = some (.xerr none e none "" (getStack stackFunctionOffset f)) ∧
    (Extend (some e) f).map errError = some (errError e) ∧
    IsEqual (Extend (some e) f) (some e) = (errError e == specResolvedCauseMessage e) ∧
    IsEqual (Extend (some (Err.basic msg2)) f) (some (.basic msg2)) = true ∧
    (∀ d c st, IsEqual (Extend (some (Err.xerr d c none "" st)) f)
      (some (.xerr d c none "" st)) = true) := by
  refine ⟨rfl, ?_, ?_, ?_, ?_⟩
  · simp [Extend, errError]
  · cases e <;> simp [Extend, IsEqual, Cause, errError, specResolvedCauseMessage]
  · simp [Extend, IsEqual, Cause, errError]
  · intro d c st
    simp [Extend, IsEqual, Cause, errError]

end Xerrs

namespace Xerrs

/-- C4: Public message resolution — `Error()` returns the mask's message
when a mask is set; otherwise, when a wrap annotation is set, the
annotation, a colon and space, and the cause's resolved message; otherwise
the cause's resolved message directly.  Concretely
`Wrap(New "i/o error") "read"` renders as `"read: i/o error"` and
`Wrapf(New "i/o error") "read %q" "config.yaml"` as
`"read \"config.yaml\": i/o error"`. -/
theorem c4_error_resolution (d : Option DataMap) (c mk : Err) (msg : String)
    (st f1 f2 : List StackLocation) :
    errError (.xerr d c (some mk) msg st) = errError mk ∧
    (msg ≠ "" → errError (.xerr d c none msg st) = msg ++ ": " ++ errError c) ∧
    errError (.xerr d c none "" st) = errError c ∧
    (Wrap (some (New "i/o error" f1)) "read" f2).map errError = some "read: i/o error" ∧
    (Wrapf (some (New "i/o error" f1)) "read %q" "config.yaml" f2).map errError =
      some "read \"config.yaml\": i/o error" := by
  refine ⟨?_, ?_, ?_, ?_, ?_⟩
  · simp [errError]
  · intro hmsg
    simp [errError, hmsg]
  · simp [errError]
  · simp [Wrap, New, errError]
  · simp [Wrapf, Wrap, New, errError]
    rfl

/-- Witness for C4: the mask conjunct at a masked error with empty wrap
annotation (the shape src's `Mask` builds), the wrap conjunct with its
hypothesis discharged at the annotation `"read"`, and the concrete
`Wrap`/`Wrapf` renderings. -/
theorem c4_error_resolution_witness :
    ("read" : String) ≠ "" ∧
    errError (.xerr none (.basic "cause") (some (.basic "public")) "" [])
      = errError (.basic "public") ∧
    errError (.xerr none (.basic "cause") none "read" [])
      = "read" ++ ": " ++ errError (.basic "cause") ∧
    errError (.xerr none (.basic "cause") none "" []) = errError (.basic "cause") ∧
    (Wrap (some (New "i/o error" [])) "read" []).map errError = some "read: i/o error" ∧
    (Wrapf (some (New "i/o error" [])) "read %q" "config.yaml" []).map errError =
      some "read \"config.yaml\": i/o error" := by
  have hempty := c4_error_resolution none (.basic "cause") (.basic "public") "" [] [] []
  have hread := c4_error_resolution none (.basic "cause") (.basic "public") "read" [] [] []
  exact ⟨by decide, hempty.1, hread.2.1 (by decide), hread.2.2.1, hread.2.2.2.1,
    hread.2.2.2.2⟩

/-- C5: Diagnostic data lookup falls through a chain — the chain `GetData`
searches the outermost node first and, when the key is absent there, falls
through to the cause; concretely, after `a = New "a"`,
`SetData a "foo" "bar"`, `b = Wrap a "b"`, looking up `"foo"` on `b`
yields `("bar", true)`. -/
theorem c5_data_chain (d : Option DataMap) (c : Err) (mk : Option Err)
    (msg k : String) (st f1 f2 : List StackLocation) :
    (GetDataChain (some (.xerr d c mk msg st)) k =
      match (match d with | none => none | some m => mapLookup m k) with
      | some v => (some v, true)
      | none => getDataChainErr c k) ∧
    GetDataChain (Wrap (SetData (some (New "a" f1)) "foo" (.str "bar")) "b" f2) "foo"
      = (some (.str "bar"), true) ∧
    GetDataChain none k = (none, false) := by
  refine ⟨?_, ?_, rfl⟩
  · cases d with
    | none => simp [GetDataChain, getDataChainErr]
    | some m => cases hm : mapLookup m k <;> simp [GetDataChain, getDataChainErr, hm]
  · simp [GetDataChain, getDataChainErr, Wrap, SetData, New, mapInsert, mapLookup]

end Xerrs

namespace Xerrs

/-- C8: Stack capture and access — `New`, `Errorf`, `Extend` and `Mask`
capture the stack with the fixed offset 2, skipping exactly the frames
internal to the library (`g` models `getStack`'s own frame and `n` the
construction operation's frame), so the first captured entry `c` is the
immediate caller of the construction operation; `Stack` is total and on a
nil or plain error yields the empty sequence. -/
theorem c8_stack_capture (message fmtd m : String) (e : Err) (mk : Option Err)
    (g n c : StackLocation) (rest : List StackLocation) :
    Stack (some (New message (g :: n :: c :: rest))) = c :: rest ∧
    Stack (some (Errorf fmtd (g :: n :: c :: rest))) = c :: rest ∧
    Extend (some e) (g :: n :: c :: rest)
      = some (.xerr none e none "" (c :: rest)) ∧
    Mask (some (.basic m)) mk (g :: n :: c :: rest)
      = some (.xerr none (.basic m) mk "" (c :: rest)) ∧
    (Stack (some (New message (g :: n :: c :: rest)))).head? = some c ∧
    Stack none = [] ∧ Stack (some (.basic m)) = [] := by
  refine ⟨rfl, rfl, rfl, rfl, rfl, rfl, rfl⟩

-- helpers for string/join reasoning -------------------------------------

theorem string_append_data (s t : String) : (s ++ t).data = s.data ++ t.data :=
  String.data_append s t

theorem string_empty_append (s : String) : "" ++ s = s := by
  cases s with
  | mk l => apply congrArg String.mk; simp [String.data_append]

theorem foldl_join_extract (xs : List String) (acc : String) :
    ∃ t, List.foldl (fun a x => a ++ "\n" ++ x) acc xs = acc ++ t := by
  induction xs generalizing acc with
  | nil =>
      refine ⟨"", ?_⟩
      cases acc with
      | mk l => apply congrArg String.mk; simp [String.data_append]
  | cons x rest ih =>
      obtain ⟨t, ht⟩ := ih (acc ++ "\n" ++ x)
      refine ⟨"\n" ++ x ++ t, ?_⟩
      simp only [List.foldl, ht]
      cases acc with
      | mk l => apply congrArg String.mk; simp [String.data_append]

theorem string_append_assoc (a b c : String) : a ++ b ++ c = a ++ (b ++ c) := by
  obtain ⟨la⟩ := a
  obtain ⟨lb⟩ := b
  obtain ⟨lc⟩ := c
  apply congrArg String.mk
  simp [String.data_append]

/-- C10: Details leading newline — for every structured error the string
returned by `Details` begins with a newline character (an empty first
line) before the `[ERROR]` line, whereas for a plain error `Details`
returns the message itself unchanged. -/
theorem c10_details_newline (d : Option DataMap) (c : Err) (mk : Option Err)
    (msg m : String) (st : List StackLocation) (n : Int) :
    (∃ t, Details (some (.xerr d c mk msg st)) n = "\n" ++ t) ∧
    Details (some (.basic m)) n = m := by
  constructor
  · have hlines : ∃ l2 rest, detailsLines c mk st n = "" :: l2 :: rest := by
      simp only [detailsLines]
      cases mk with
      | none =>
          by_cases hst : st.length = 0 <;> simp [hst]
      | some mke =>
          by_cases hmask : errError c ≠ errError mke <;>
            by_cases hst : st.length = 0 <;> simp [hst, hmask]
    obtain ⟨l2, rest, hl⟩ := hlines
    obtain ⟨t, ht⟩ := foldl_join_extract rest ("\n" ++ l2)
    refine ⟨l2 ++ t, ?_⟩
    simp only [Details, hl, stringsJoin, List.foldl]
    rw [show ("" ++ "\n" ++ l2 : String) = "\n" ++ l2 from
      congrArg (· ++ l2) rfl]
    rw [ht, string_append_assoc]
  · rfl

end Xerrs

namespace Xerrs

theorem detailsLines_none_eq (c : Err) (st : List StackLocation) (n : Int) :
    detailsLines c none st n =
      [""] ++ ["[ERROR] " ++ errError c]
      ++ (if st.length = 0 then [] else ["[STACK]:"] ++ stackEntries st n) := by
  simp only [detailsLines]
  by_cases hst : st.length = 0 <;> simp [hst]

theorem detailsLines_some_eq (c mke : Err) (st : List StackLocation) (n : Int) :
    detailsLines c (some mke) st n =
      [""] ++ ["[ERROR] " ++ errError c]
      ++ (if errError c ≠ errError mke then ["[MASK ERROR] " ++ errError mke] else [])
      ++ (if st.length = 0 then [] else ["[STACK]:"] ++ stackEntries st n) := by
  simp only [detailsLines]
  by_cases hm : errError c ≠ errError mke <;>
    by_cases hst : st.length = 0 <;> simp [hm, hst]

theorem mask_line_ne_empty (s : String) : "[MASK ERROR] " ++ s ≠ "" := fun h =>
  Option.noConfusion
    (show (some '[' : Option Char) = none from congrArg (fun t => t.data.get? 0) h)

theorem mask_line_ne_error_line (s c : String) :
    "[MASK ERROR] " ++ s ≠ "[ERROR] " ++ c := fun h =>
  absurd
    (show (some 'M' : Option Char) = some 'E' from congrArg (fun t => t.data.get? 1) h)
    (by decide)

theorem mask_line_ne_stack_header (s : String) : "[MASK ERROR] " ++ s ≠ "[STACK]:" := fun h =>
  absurd
    (show (some 'M' : Option Char) = some 'S' from congrArg (fun t => t.data.get? 1) h)
    (by decide)

theorem mask_line_starts_bracket (s : String) :
    ("[MASK ERROR] " ++ s).data.get? 0 = some '[' := rfl

theorem stack_header_ne_empty : ("[STACK]:" : String) ≠ "" := by decide

theorem stack_header_ne_error_line (c : String) : ("[STACK]:" : String) ≠ "[ERROR] " ++ c :=
  fun h =>
    absurd
      (show (some 'S' : Option Char) = some 'E' from congrArg (fun t => t.data.get? 1) h)
      (by decide)

theorem stack_header_ne_mask_line (s : String) : ("[STACK]:" : String) ≠ "[MASK ERROR] " ++ s :=
  fun h => mask_line_ne_stack_header s h.symm

theorem mem_stackEntries_not_bracket {x : String} {st : List StackLocation} {n : Int}
    (hstack : ∀ loc ∈ st, (StackLocation.render loc).data.get? 0 ≠ some '[')
    (hx : x ∈ stackEntries st n) : x.data.get? 0 ≠ some '[' := by
  simp only [stackEntries, List.mem_map] at hx
  obtain ⟨loc, hloc, rfl⟩ := hx
  exact hstack loc (List.take_subset _ _ hloc)

theorem detailsLines_mask_iff (c : Err) (mk : Option Err) (st : List StackLocation) (n : Int)
    (hstack : ∀ loc ∈ st, (StackLocation.render loc).data.get? 0 ≠ some '[') :
    (∃ s, ("[MASK ERROR] " ++ s) ∈ detailsLines c mk st n) ↔
      (∃ mke, mk = some mke ∧ errError c ≠ errError mke) := by
  constructor
  · rintro ⟨s, hs⟩
    cases mk with
    | none =>
        exfalso
        rw [detailsLines_none_eq] at hs
        simp only [List.append_assoc, List.mem_append, List.mem_singleton] at hs
        rcases hs with h1 | h2 | h3
        · exact mask_line_ne_empty s h1
        · exact mask_line_ne_error_line s (errError c) h2
        · by_cases hst : st.length = 0
          · rw [if_pos hst] at h3
            exact List.not_mem_nil _ h3
          · rw [if_neg hst, List.singleton_append, List.mem_cons] at h3
            rcases h3 with hhd | hent
            · exact mask_line_ne_stack_header s hhd
            · exact mem_stackEntries_not_bracket hstack hent (mask_line_starts_bracket s)
    | some mke =>
        rw [detailsLines_some_eq] at hs
        simp only [List.append_assoc, List.mem_append, List.mem_singleton] at hs
        rcases hs with h1 | h2 | h3 | h4
        · exact absurd h1 (mask_line_ne_empty s)
        · exact absurd h2 (mask_line_ne_error_line s (errError c))
        · by_cases hne : errError c ≠ errError mke
          · exact ⟨mke, rfl, hne⟩
          · rw [if_neg hne] at h3
            exact absurd h3 (List.not_mem_nil _)
        · exfalso
          by_cases hst : st.length = 0
          · rw [if_pos hst] at h4
            exact List.not_mem_nil _ h4
          · rw [if_neg hst, List.singleton_append, List.mem_cons] at h4
            rcases h4 with hhd | hent
            · exact mask_line_ne_stack_header s hhd
            · exact mem_stackEntries_not_bracket hstack hent (mask_line_starts_bracket s)
  · rintro ⟨mke, rfl, hne⟩
    refine ⟨errError mke, ?_⟩
    rw [detailsLines_some_eq, if_pos hne]
    simp

theorem detailsLines_stack_iff (c : Err) (mk : Option Err) (st : List StackLocation) (n : Int) :
    "[STACK]:" ∈ detailsLines c mk st n ↔ st ≠ [] := by
  constructor
  · intro hs hst0
    subst hst0
    have hlen : ([] : List StackLocation).length = 0 := rfl
    cases mk with
    | none =>
        rw [detailsLines_none_eq, if_pos hlen, List.append_nil] at hs
        simp only [List.append_assoc, List.mem_append, List.mem_singleton] at hs
        rcases hs with h1 | h2
        · exact stack_header_ne_empty h1
        · exact stack_header_ne_error_line (errError c) h2
    | some mke =>
        rw [detailsLines_some_eq, if_pos hlen, List.append_nil] at hs
        simp only [List.append_assoc, List.mem_append, List.mem_singleton] at hs
        rcases hs with h1 | h2 | h3
        · exact stack_header_ne_empty h1
        · exact stack_header_ne_error_line (errError c) h2
        · by_cases hne : errError c ≠ errError mke
          · rw [if_pos hne, List.mem_singleton] at h3
            exact stack_header_ne_mask_line (errError mke) h3
          · rw [if_neg hne] at h3
            exact List.not_mem_nil _ h3
  · intro hst
    have hlen : st.length ≠ 0 := by simpa [List.length_eq_zero] using hst
    cases mk with
    | none =>
        rw [detailsLines_none_eq, if_neg hlen]
        simp
    | some mke =>
        rw [detailsLines_some_eq, if_neg hlen]
        simp

theorem stackEntries_length_eq (st : List StackLocation) (n : Int) (hn : 0 ≤ n) :
    ((stackEntries st n).length : Int) = min n (st.length : Int) := by
  simp only [stackEntries, List.length_map, List.length_take, detailsTop]
  split_ifs with h <;> omega

end Xerrs

namespace Xerrs

/-- C7 counterexample: at `maxStack = -1` on a structured error with one
captured frame, `Details` renders zero stack entries (the output ends at
the `[STACK]:` header) although `min(maxStack, capturedLength) = -1`, so
the claimed entry count `min(maxStack, captured length)` fails for
negative `maxStack`. -/
theorem c7_counterexample :
    Details (some (.xerr none (.basic "E") none ""
        [⟨"main.main", "main.go", 10⟩])) (-1) = "\n[ERROR] E\n[STACK]:" ∧
    ¬ (((stackEntries [⟨"main.main", "main.go", 10⟩] (-1)).length : Int)
        = min (-1 : Int)
            (([⟨"main.main", "main.go", 10⟩] : List StackLocation).length : Int)) := by
  constructor
  · simp [Details, detailsLines, errError, stackEntries, detailsTop, stringsJoin]
  · simp [stackEntries, detailsTop]

/-- C7 (amended): `Details nil n = ""`; `Details` of a plain error is
exactly its message; for a structured error the output lines contain the
`[ERROR]` line with the cause message, contain a `[MASK ERROR]` line iff a
mask is set whose text differs from the cause text, and contain the
`[STACK]:` header iff the captured stack is non-empty, with exactly
`min(maxStack, captured length)` rendered stack entries for `maxStack ≥ 0`
(for negative `maxStack` the loop renders zero entries).  The mask and
stack line conditions are stated for stacks whose rendered frames do not
begin with a bracket, which holds of every frame the runtime produces. -/
theorem c7_details_rendering (d : Option DataMap) (c : Err) (mk : Option Err)
    (msg m : String) (st : List StackLocation) (n : Int)
    (hstack : ∀ loc ∈ st, (StackLocation.render loc).data.get? 0 ≠ some '[') :
    Details none n = "" ∧
    Details (some (.basic m)) n = m ∧
    Details (some (.xerr d c mk msg st)) n = stringsJoin (detailsLines c mk st n) "\n" ∧
    "[ERROR] " ++ errError c ∈ detailsLines c mk st n ∧
    ((∃ s, ("[MASK ERROR] " ++ s) ∈ detailsLines c mk st n) ↔
      (∃ mke, mk = some mke ∧ errError c ≠ errError mke)) ∧
    ("[STACK]:" ∈ detailsLines c mk st n ↔ st ≠ []) ∧
    (0 ≤ n → ((stackEntries st n).length : Int) = min n (st.length : Int)) ∧
    (n < 0 → stackEntries st n = []) := by
  refine ⟨rfl, rfl, rfl, ?_, detailsLines_mask_iff c mk st n hstack,
    detailsLines_stack_iff c mk st n, stackEntries_length_eq st n, ?_⟩
  · cases mk with
    | none => rw [detailsLines_none_eq]; simp
    | some mke => rw [detailsLines_some_eq]; simp
  · intro hneg
    have hle : ¬ (n > (st.length : Int)) := by
      have h0 : (0 : Int) ≤ (st.length : Int) := Int.natCast_nonneg _
      omega
    have ht : (detailsTop n st.length).toNat = 0 := by
      simp only [detailsTop, if_neg hle]
      omega
    simp [stackEntries, ht]

/-- Witness for C7 (amended) at a concrete masked error with one stack
frame, at `maxStack = 2` and at `maxStack = -1`. -/
theorem c7_details_rendering_witness :
    (∀ loc ∈ ([⟨"xerrs.TestDetails", "xerrs_test.go", 778⟩] : List StackLocation),
        (StackLocation.render loc).data.get? 0 ≠ some '[') ∧
    (0 : Int) ≤ 2 ∧
    ((-1 : Int) < 0) ∧
    Details none 2 = "" ∧
    Details (some (.basic "plain")) 2 = "plain" ∧
    Details (some (.xerr none (.basic "ERROR") (some (.basic "MASK")) ""
        [⟨"xerrs.TestDetails", "xerrs_test.go", 778⟩])) 2
      = stringsJoin (detailsLines (.basic "ERROR") (some (.basic "MASK"))
          [⟨"xerrs.TestDetails", "xerrs_test.go", 778⟩] 2) "\n" ∧
    "[ERROR] " ++ errError (.basic "ERROR")
      ∈ detailsLines (.basic "ERROR") (some (.basic "MASK"))
          [⟨"xerrs.TestDetails", "xerrs_test.go", 778⟩] 2 ∧
    ((∃ s, ("[MASK ERROR] " ++ s)
        ∈ detailsLines (.basic "ERROR") (some (.basic "MASK"))
            [⟨"xerrs.TestDetails", "xerrs_test.go", 778⟩] 2) ↔
      (∃ mke, (some (Err.basic "MASK") : Option Err) = some mke ∧
        errError (.basic "ERROR") ≠ errError mke)) ∧
    ("[STACK]:" ∈ detailsLines (.basic "ERROR") (some (.basic "MASK"))
        [⟨"xerrs.TestDetails", "xerrs_test.go", 778⟩] 2 ↔
      ([⟨"xerrs.TestDetails", "xerrs_test.go", 778⟩] : List StackLocation) ≠ []) ∧
    ((stackEntries [⟨"xerrs.TestDetails", "xerrs_test.go", 778⟩] 2).length : Int)
      = min (2 : Int)
          (([⟨"xerrs.TestDetails", "xerrs_test.go", 778⟩] : List StackLocation).length : Int) ∧
    stackEntries [⟨"xerrs.TestDetails", "xerrs_test.go", 778⟩] (-1) = [] := by
  have h2 := c7_details_rendering none (.basic "ERROR") (some (.basic "MASK")) "" "plain"
      [⟨"xerrs.TestDetails", "xerrs_test.go", 778⟩] 2 (by decide)
  have hneg := c7_details_rendering none (.basic "ERROR") (some (.basic "MASK")) "" "plain"
      [⟨"xerrs.TestDetails", "xerrs_test.go", 778⟩] (-1) (by decide)
  exact ⟨by decide, by decide, by decide, h2.1, h2.2.1, h2.2.2.1, h2.2.2.2.1,
    h2.2.2.2.2.1, h2.2.2.2.2.2.1, h2.2.2.2.2.2.2.1 (by decide),
    hneg.2.2.2.2.2.2.2 (by decide)⟩

end Xerrs
